import Mathlib

/-
  Shallow embedding of the resilient client-side communication layer of the
  repository (src/web/static/js/api-client.js, class APIClient).

  Transport outcomes (the results of `fetch`) are supplied by an environment
  trace `Nat → Outcome`, indexed by `retryCount`.  Client state mutated by the
  code (this.token, localStorage, the socket fields) is threaded explicitly.
  `broadcastEvent` is recorded in an event log; the handler-invocation
  semantics of `eventListeners` (a JS Map of Sets) is modelled separately by
  `on` / `forEachRun` below.  Awaited delays, fetch counts, scheduled
  reconnect timers and started heartbeat intervals are recorded as ghost
  observables so that the spec's claims about them can be stated.
-/

namespace APIClient

/-- Parsed JSON response body: the `error` field consumed as failure message,
the `token` field consumed by `login`, and an opaque stand-in `payload` for
any other data. -/
structure Body where
  error : Option String := none
  token : Option String := none
  payload : Nat := 0
deriving DecidableEq

/-- Outcome of one `fetch` attempt: an HTTP response with a status code and a
parsed body, or a network/transport failure (the promise rejects). -/
inductive Outcome where
  | http (status : Nat) (body : Body)
  | netfail
deriving DecidableEq

/-- A thrown JS error: `new Error(data.error || 'Request failed')` for an HTTP
error response, or the error thrown by a failed `fetch`. -/
inductive JsError where
  | httpErr (msg : String)
  | netErr
deriving DecidableEq

/-- `response.ok`: status in the 2xx range. -/
def statusOk (status : Nat) : Bool :=
  decide (200 ≤ status) && decide (status < 300)

/-- The underlying socket.io socket object, reduced to its `connected` flag. -/
structure Socket where
  connected : Bool
deriving DecidableEq

/-- Payload of a broadcast event as used by the claims: `authChange` carries
an `authenticated` flag, `socketChange` carries a `connected` flag. -/
inductive EvPayload where
  | auth (authenticated : Bool)
  | sock (connected : Bool)
deriving DecidableEq

/-- The mutable fields of the APIClient instance, plus ghost observables:
`pendingReconnects` counts scheduled not-yet-fired reconnect timeouts,
`totalScheduled` counts all reconnect timeouts ever scheduled,
`heartbeatTimers` counts heartbeat intervals started (none is ever cleared
in the source), `connectionsOpened` counts calls to `io(...)`,
`refreshCalls` counts calls to `refreshAuthToken`, and `log` records the
events published via `broadcastEvent` in order. -/
structure ClientState where
  token : Option String := none
  lsToken : Option String := none
  lsRemember : Bool := false
  socket : Option Socket := none
  socketConnected : Bool := false
  reconnectAttempts : Nat := 0
  pendingReconnects : Nat := 0
  totalScheduled : Nat := 0
  heartbeatTimers : Nat := 0
  connectionsOpened : Nat := 0
  refreshCalls : Nat := 0
  log : List (String × EvPayload) := []
deriving DecidableEq

/-- Constructor constant `this.maxRetries = 3`. -/
def maxRetries : Nat := 3

/-- Constructor constant `this.retryDelay = 1000`. -/
def retryDelay : Nat := 1000

/-- Constructor constant `this.maxReconnectAttempts = 5`. -/
def maxReconnectAttempts : Nat := 5

/-- Constructor constant `this.reconnectDelay = 2000`. -/
def reconnectDelay : Nat := 2000

/-- `broadcastEvent(event, data)` as observed at the client level: the
publication is appended to the event log.  Handler invocation order and
exception behaviour are modelled by `forEachRun`. -/
def broadcastEvent (st : ClientState) (event : String) (data : EvPayload) : ClientState :=
  { st with log := st.log ++ [(event, data)] }

/-- `disconnectSocket()`: if a socket exists, call its `disconnect()`, null the
reference and clear `socketConnected`.  The underlying disconnect event that
this triggers is delivered later as an environment event (`SockEv`). -/
def disconnectSocket (st : ClientState) : ClientState :=
  match st.socket with
  | some _ => { st with socket := none, socketConnected := false }
  | none => st

/-- `logout()`: clear the token, remove the persisted token and remember-me
entries, disconnect the socket, and publish `authChange` with
`authenticated := false`. -/
def logout (st : ClientState) : ClientState :=
  let st1 := { st with token := none, lsToken := none, lsRemember := false }
  let st2 := disconnectSocket st1
  broadcastEvent st2 "authChange" (EvPayload.auth false)

/-- `refreshAuthToken()`: the placeholder implementation calls `logout()` and
returns `false` (refresh never succeeds).  `refreshCalls` is a ghost counter
of invocations. -/
def refreshAuthToken (st : ClientState) : Bool × ClientState :=
  (false, logout { st with refreshCalls := st.refreshCalls + 1 })

instance : DecidableEq (Except JsError Body) := fun a b =>
  match a, b with
  | Except.ok x, Except.ok y =>
    if h : x = y then isTrue (by rw [h]) else isFalse (by simp [h])
  | Except.error x, Except.error y =>
    if h : x = y then isTrue (by rw [h]) else isFalse (by simp [h])
  | Except.ok _, Except.error _ => isFalse (by simp)
  | Except.error _, Except.ok _ => isFalse (by simp)

/-- Result of `request`: the settled promise value, the final client state,
the list of awaited backoff delays in chronological order, and the number of
`fetch` attempts issued. -/
structure ReqResult where
  result : Except JsError Body
  state : ClientState
  delays : List Nat
  attempts : Nat
deriving DecidableEq

/-- `request(endpoint, options, retryCount)`, lines 24-73 of the source.
`remaining` is the remaining retry budget `maxRetries - retryCount`, so the
current attempt index is `retryCount = maxR - remaining`; the source's three
`retryCount < this.maxRetries` tests all become `remaining > 0` and are
hoisted to a single match.  Control flow mirrors the source: on 401 with
budget left, `refreshAuthToken` runs (and, were it ever to succeed, the
request would retry immediately); a non-ok response is thrown inside the
`try` block, so the `catch` clause retries it after a fixed `retryDelay`
just like a network failure; only with the budget exhausted does the last
error propagate to the caller. -/
def requestGo (trace : Nat → Outcome) (maxR delayD : Nat) :
    Nat → ClientState → ReqResult
  | remaining, st =>
    let rc := maxR - remaining
    match trace rc with
    | Outcome.netfail =>
      match remaining with
      | r + 1 =>
        let res := requestGo trace maxR delayD r st
        { res with delays := delayD :: res.delays, attempts := res.attempts + 1 }
      | 0 =>
        { result := Except.error JsError.netErr, state := st,
          delays := [], attempts := 1 }
    | Outcome.http status body =>
      match remaining with
      | r + 1 =>
        let auth := if status = 401 then refreshAuthToken st else (false, st)
        if auth.1 then
          let res := requestGo trace maxR delayD r auth.2
          { res with attempts := res.attempts + 1 }
        else if status = 429 then
          let res := requestGo trace maxR delayD r auth.2
          { res with delays := delayD * 2 ^ rc :: res.delays,
                     attempts := res.attempts + 1 }
        else if statusOk status then
          { result := Except.ok body, state := auth.2,
            delays := [], attempts := 1 }
        else
          let res := requestGo trace maxR delayD r auth.2
          { res with delays := delayD :: res.delays, attempts := res.attempts + 1 }
      | 0 =>
        if statusOk status then
          { result := Except.ok body, state := st, delays := [], attempts := 1 }
        else
          { result := Except.error (JsError.httpErr (body.error.getD "Request failed")),
            state := st, delays := [], attempts := 1 }

/-- A caller-facing `request(endpoint, options)`: `retryCount` starts at 0,
with the constructor's `maxRetries` and `retryDelay`. -/
def request (trace : Nat → Outcome) (st : ClientState) : ReqResult :=
  requestGo trace maxRetries retryDelay maxRetries st

/-- `login(username, password, rememberMe)`, lines 114-131: POST `/login`; on
success install the returned token, persist it, set the remember-me entry if
requested, and publish `authChange` with `authenticated := true`; on failure
rethrow the error, the state being whatever the failed `request` left. -/
def login (trace : Nat → Outcome) (st : ClientState)
    (_username _password : String) (rememberMe : Bool) :
    Except JsError Body × ClientState :=
  let r := request trace st
  match r.result with
  | Except.ok response =>
    let st1 := { r.state with token := response.token, lsToken := response.token }
    let st2 := if rememberMe then { st1 with lsRemember := true } else st1
    let st3 := broadcastEvent st2 "authChange" (EvPayload.auth true)
    (Except.ok response, st3)
  | Except.error e => (Except.error e, r.state)

/-- `connectSocket()`, lines 199-210: return early when `this.socket?.connected`
is true; otherwise call `io(...)` (a fresh, not yet connected socket) and run
`setupSocketHandlers()`, which registers the handlers and starts a new
heartbeat interval. -/
def connectSocket (st : ClientState) : ClientState :=
  if (st.socket.map Socket.connected).getD false then st
  else
    { st with socket := some { connected := false },
              connectionsOpened := st.connectionsOpened + 1,
              heartbeatTimers := st.heartbeatTimers + 1 }

/-- The `connect` handler, lines 223-231: the library marks the socket
connected, the handler sets `socketConnected`, resets `reconnectAttempts` to
0 and publishes `socketChange` with `connected := true`. -/
def onConnect (st : ClientState) : ClientState :=
  let st1 := { st with socket := st.socket.map (fun _ => { connected := true }),
                       socketConnected := true, reconnectAttempts := 0 }
  broadcastEvent st1 "socketChange" (EvPayload.sock true)

/-- The `disconnect` handler, lines 233-243: clear `socketConnected`, publish
`socketChange` with `connected := false`, and, when
`reconnectAttempts < maxReconnectAttempts`, increment the counter and
schedule a `connectSocket()` timeout.  The handler closes over `this`, not
over the socket reference, so it behaves the same when `this.socket` has
already been nulled by `disconnectSocket()`. -/
def onDisconnect (st : ClientState) : ClientState :=
  let st1 := { st with socket := st.socket.map (fun _ => { connected := false }),
                       socketConnected := false }
  let st2 := broadcastEvent st1 "socketChange" (EvPayload.sock false)
  if st2.reconnectAttempts < maxReconnectAttempts then
    { st2 with reconnectAttempts := st2.reconnectAttempts + 1,
               pendingReconnects := st2.pendingReconnects + 1,
               totalScheduled := st2.totalScheduled + 1 }
  else st2

/-- A scheduled reconnect timeout fires: `() => this.connectSocket()`.  Only a
previously scheduled, still pending timer can fire. -/
def fireTimer (st : ClientState) : ClientState :=
  match st.pendingReconnects with
  | p + 1 => connectSocket { st with pendingReconnects := p }
  | 0 => st

/-- Environment events driving the realtime-channel state machine: underlying
`connect` / `disconnect` events, explicit `connectSocket()` /
`disconnectSocket()` calls, and the firing of a scheduled reconnect timeout. -/
inductive SockEv where
  | connectEvent
  | disconnectEvent
  | callConnect
  | callDisconnect
  | timerFire
deriving DecidableEq

/-- One step of the channel state machine. -/
def sockStep (st : ClientState) (e : SockEv) : ClientState :=
  match e with
  | SockEv.connectEvent => onConnect st
  | SockEv.disconnectEvent => onDisconnect st
  | SockEv.callConnect => connectSocket st
  | SockEv.callDisconnect => disconnectSocket st
  | SockEv.timerFire => fireTimer st

/-- Run the channel state machine over a sequence of events. -/
def runSock (st : ClientState) (es : List SockEv) : ClientState :=
  es.foldl sockStep st

/-- `on(event, callback)`, lines 276-281, restricted to one event name:
`this.eventListeners.get(event)` is a JS `Set`, which iterates in insertion
order and ignores an `add` of an element already present.  Handlers are
identified by a `Nat` id (JS compares them by function reference); the source
method is named `on`, a reserved token here. -/
def onListener (listeners : List Nat) (callback : Nat) : List Nat :=
  if callback ∈ listeners then listeners else listeners ++ [callback]

/-- `listeners.forEach(callback => callback(data))`, line 292: handlers run
synchronously in insertion order; there is no try/catch, so the first handler
that throws stops the iteration and its exception propagates to the caller of
`broadcastEvent`.  `throws h = true` means handler `h` throws on this payload.
Returns the list of handlers actually invoked (in order) and the propagated
exception, if any. -/
def forEachRun : List Nat → (Nat → Bool) → List Nat × Option Nat
  | [], _ => ([], none)
  | h :: rest, throws =>
    if throws h then ([h], some h)
    else
      let res := forEachRun rest throws
      (h :: res.1, res.2)

end APIClient

namespace APIClient

/-! Helper lemmas shared by the claim theorems. -/

lemma statusOk_401 : statusOk 401 = false := rfl

lemma statusOk_429 : statusOk 429 = false := rfl

/-- Attempt count of `requestGo` is between 1 and `remaining + 1`: each level
issues one `fetch`, and every retry branch both decrements the remaining
budget and requires it to be positive. -/
lemma requestGo_attempts (trace : Nat → Outcome) (maxR delayD : Nat) :
    ∀ remaining st, 1 ≤ (requestGo trace maxR delayD remaining st).attempts ∧
      (requestGo trace maxR delayD remaining st).attempts ≤ remaining + 1 := by
  intro remaining
  induction remaining with
  | zero =>
    intro st
    rw [requestGo]
    cases h : trace (maxR - 0) with
    | netfail => simp
    | http status body =>
      by_cases hok : statusOk status = true <;> simp [hok]
  | succ r ih =>
    intro st
    rw [requestGo]
    cases h : trace (maxR - (r + 1)) with
    | netfail =>
      have h2 := ih st
      simp
      omega
    | http status body =>
      have h2 := ih (if status = 401 then refreshAuthToken st else (false, st)).2
      by_cases h401 : status = 401 <;>
      by_cases h429 : status = 429 <;>
      by_cases hok : statusOk status = true <;>
        simp [h401, h429, hok, refreshAuthToken, statusOk_401, statusOk_429] at h2 ⊢ <;>
        omega

/-- `request` mutates client state only through `refreshAuthToken`, which runs
only on a 401 response: a trace with no 401 leaves the state untouched. -/
lemma requestGo_state_no401 (trace : Nat → Outcome) (maxR delayD : Nat)
    (h401 : ∀ i b, trace i ≠ Outcome.http 401 b) :
    ∀ remaining st, (requestGo trace maxR delayD remaining st).state = st := by
  intro remaining
  induction remaining with
  | zero =>
    intro st
    rw [requestGo]
    cases h : trace (maxR - 0) with
    | netfail => simp
    | http status body =>
      by_cases hok : statusOk status = true <;> simp [hok]
  | succ r ih =>
    intro st
    rw [requestGo]
    cases h : trace (maxR - (r + 1)) with
    | netfail =>
      have h2 := ih st
      simp [h2]
    | http status body =>
      have hs : status ≠ 401 := by
        intro hc
        exact h401 _ body (by rw [h, hc])
      have h2 := ih st
      by_cases h429 : status = 429 <;>
      by_cases hok : statusOk status = true <;>
        simp [hs, h429, hok, h2]

/-- One step of the channel machine, on any event other than the underlying
connect event, keeps `reconnectAttempts` within the bound and nondecreasing,
advances `totalScheduled` in lockstep with `reconnectAttempts`, and keeps a
disconnected channel disconnected. -/
lemma sockStep_inv (st : ClientState) (e : SockEv) (he : e ≠ SockEv.connectEvent)
    (h1 : st.reconnectAttempts ≤ maxReconnectAttempts) (h2 : st.socketConnected = false) :
    (sockStep st e).reconnectAttempts ≤ maxReconnectAttempts
    ∧ st.reconnectAttempts ≤ (sockStep st e).reconnectAttempts
    ∧ (sockStep st e).totalScheduled + st.reconnectAttempts
        = st.totalScheduled + (sockStep st e).reconnectAttempts
    ∧ (sockStep st e).socketConnected = false := by
  cases e with
  | connectEvent => exact absurd rfl he
  | disconnectEvent =>
    by_cases hra : st.reconnectAttempts < maxReconnectAttempts <;>
      simp [sockStep, onDisconnect, broadcastEvent, hra] <;> omega
  | callConnect =>
    by_cases hc : (st.socket.map Socket.connected).getD false = true <;>
      simp [sockStep, connectSocket, hc, h1, h2]
  | callDisconnect =>
    cases hs : st.socket <;> simp [sockStep, disconnectSocket, hs, h1, h2]
  | timerFire =>
    cases hp : st.pendingReconnects with
    | zero => simp [sockStep, fireTimer, hp, h1, h2]
    | succ p =>
      by_cases hc : (st.socket.map Socket.connected).getD false = true <;>
        simp [sockStep, fireTimer, hp, connectSocket, hc, h1, h2]

/-- The invariant of `sockStep_inv`, carried over a whole event sequence. -/
lemma runSock_inv (es : List SockEv) (st : ClientState)
    (hne : ∀ e ∈ es, e ≠ SockEv.connectEvent)
    (h1 : st.reconnectAttempts ≤ maxReconnectAttempts) (h2 : st.socketConnected = false) :
    (runSock st es).reconnectAttempts ≤ maxReconnectAttempts
    ∧ st.reconnectAttempts ≤ (runSock st es).reconnectAttempts
    ∧ (runSock st es).totalScheduled + st.reconnectAttempts
        = st.totalScheduled + (runSock st es).reconnectAttempts
    ∧ (runSock st es).socketConnected = false := by
  induction es generalizing st with
  | nil => exact ⟨h1, le_refl _, rfl, h2⟩
  | cons e rest ih =>
    have hstep := sockStep_inv st e (hne e (List.mem_cons_self e rest)) h1 h2
    have hrest := ih (sockStep st e) (fun x hx => hne x (List.mem_cons_of_mem e hx))
      hstep.1 hstep.2.2.2
    refine ⟨hrest.1, le_trans hstep.2.1 hrest.2.1, ?_, hrest.2.2.2⟩
    have ha := hstep.2.2.1
    have hb := hrest.2.2.1
    simp [runSock] at hb ⊢
    omega

/-- Full characterization of `forEachRun`: handlers run in registration
order up to and including the first one that throws; that exception, if
any, is the one propagated to the publisher. -/
lemma forEachRun_spec (hs : List Nat) (throws : Nat → Bool) :
    (forEachRun hs throws).1
      = hs.takeWhile (fun h => !throws h) ++ (hs.dropWhile (fun h => !throws h)).take 1
    ∧ (forEachRun hs throws).2 = (hs.dropWhile (fun h => !throws h)).head? := by
  induction hs with
  | nil => simp [forEachRun]
  | cons h rest ih =>
    by_cases ht : throws h = true <;>
      simp [forEachRun, List.takeWhile, List.dropWhile, ht, ih.1, ih.2]

/-- When no registered handler throws, `forEachRun` invokes exactly the
registered handlers, in order, and no exception escapes. -/
lemma forEachRun_all (hs : List Nat) (throws : Nat → Bool)
    (h : ∀ x ∈ hs, throws x = false) : forEachRun hs throws = (hs, none) := by
  induction hs with
  | nil => rfl
  | cons x rest ih =>
    have hx := h x (List.mem_cons_self x rest)
    have hr := ih (fun y hy => h y (List.mem_cons_of_mem x hy))
    simp [forEachRun, hx, hr]

/-- No step of the channel machine ever decreases the number of started
heartbeat intervals: the source never calls clearInterval. -/
lemma heartbeat_mono (st : ClientState) (e : SockEv) :
    st.heartbeatTimers ≤ (sockStep st e).heartbeatTimers := by
  cases e with
  | connectEvent => simp [sockStep, onConnect, broadcastEvent]
  | disconnectEvent =>
    by_cases hra : st.reconnectAttempts < maxReconnectAttempts <;>
      simp [sockStep, onDisconnect, broadcastEvent, hra]
  | callConnect =>
    by_cases hc : (st.socket.map Socket.connected).getD false = true <;>
      simp [sockStep, connectSocket, hc]
  | callDisconnect => cases hs : st.socket <;> simp [sockStep, disconnectSocket, hs]
  | timerFire =>
    cases hp : st.pendingReconnects with
    | zero => simp [sockStep, fireTimer, hp]
    | succ p =>
      by_cases hc : (st.socket.map Socket.connected).getD false = true <;>
        simp [sockStep, fireTimer, hp, connectSocket, hc]

end APIClient

namespace APIClient

/-- Claim C1, counterexample: a request whose every attempt returns HTTP 500
with body error field set to the server message is NOT rejected immediately:
4 fetch attempts are issued (not 1), with a fixed 1000ms delay before each
retry, before the call rejects with the server-provided message of the last
attempt. -/
theorem c1_counterexample :
    (request (fun _ => Outcome.http 500 { error := some "boom" }) { }).attempts = 4
    ∧ (request (fun _ => Outcome.http 500 { error := some "boom" }) { }).delays
        = [1000, 1000, 1000]
    ∧ (request (fun _ => Outcome.http 500 { error := some "boom" }) { }).result
        = Except.error (JsError.httpErr "boom")
    ∧ ¬((request (fun _ => Outcome.http 500 { error := some "boom" }) { }).attempts = 1) := by
  decide

/-- Claim C1, amended: for every request whose transport outcomes are all HTTP
responses with a status outside 2xx and different from 401 and 429, the
error thrown for the non-ok response is caught by the function's own catch
clause, so the request is retried after the fixed retryDelay until the
budget is exhausted: maxRetries + 1 total attempts, maxRetries fixed delays,
and a final rejection carrying the server-provided message of the LAST
attempt; the client state is unchanged and no event is published. -/
theorem c1_error_statuses_are_retried (st : ClientState) (s : Nat → Nat) (b : Nat → Body)
    (hok : ∀ i, statusOk (s i) = false)
    (h401 : ∀ i, s i ≠ 401) (h429 : ∀ i, s i ≠ 429) :
    request (fun i => Outcome.http (s i) (b i)) st =
      { result := Except.error (JsError.httpErr ((b maxRetries).error.getD "Request failed")),
        state := st, delays := List.replicate maxRetries retryDelay,
        attempts := maxRetries + 1 } := by
  simp [request, requestGo, maxRetries, retryDelay, hok 0, hok 1, hok 2, hok 3,
        h401 0, h401 1, h401 2, h401 3, h429 0, h429 1, h429 2, h429 3, List.replicate]

/-- Claim C1, witness for the amended theorem at a concrete input. -/
theorem c1_error_statuses_are_retried_witness :
    request (fun _ => Outcome.http 500 { error := some "boom" }) { } =
      { result := Except.error (JsError.httpErr "boom"), state := { },
        delays := List.replicate maxRetries retryDelay, attempts := maxRetries + 1 } :=
  c1_error_statuses_are_retried { } (fun _ => 500) (fun _ => { error := some "boom" })
    (fun _ => rfl) (fun _ => by show (500 : Nat) ≠ 401; decide)
    (fun _ => by show (500 : Nat) ≠ 429; decide)

/-- Claim C2, counterexample: under persistent HTTP 401 from an authenticated
state, the token refresh is attempted 3 times (not exactly once) and the
authChange event with authenticated false is published 3 times (not exactly
once). -/
theorem c2_counterexample :
    (request (fun _ => Outcome.http 401 { error := some "Invalid credentials" })
        { token := some "tok", lsToken := some "tok", lsRemember := true }).state.refreshCalls = 3
    ∧ (request (fun _ => Outcome.http 401 { error := some "Invalid credentials" })
        { token := some "tok", lsToken := some "tok", lsRemember := true }).state.log.count
        ("authChange", EvPayload.auth false) = 3
    ∧ ¬((request (fun _ => Outcome.http 401 { error := some "Invalid credentials" })
        { token := some "tok", lsToken := some "tok", lsRemember := true }).state.refreshCalls = 1)
    ∧ ¬((request (fun _ => Outcome.http 401 { error := some "Invalid credentials" })
        { token := some "tok", lsToken := some "tok", lsRemember := true }).state.log.count
        ("authChange", EvPayload.auth false) = 1) := by
  decide

/-- Claim C2, amended: on a request whose every attempt returns HTTP 401, a
token refresh is attempted once per attempt that still has retry budget
(maxRetries refreshes in total, not exactly one); each failed refresh clears
the stored and persisted credential and publishes one authChange event with
authenticated false (maxRetries publications in total); the 401 response is
then thrown and caught by the retry handler, and only when the budget is
exhausted does the call reject, with an error carrying the server-provided
message rather than a distinguished Unauthorized error. -/
theorem c2_persistent_unauthorized (st : ClientState) (body : Body) :
    (request (fun _ => Outcome.http 401 body) st).result
      = Except.error (JsError.httpErr (body.error.getD "Request failed"))
    ∧ (request (fun _ => Outcome.http 401 body) st).attempts = maxRetries + 1
    ∧ (request (fun _ => Outcome.http 401 body) st).state.refreshCalls
        = st.refreshCalls + maxRetries
    ∧ (request (fun _ => Outcome.http 401 body) st).state.log
        = st.log ++ List.replicate maxRetries ("authChange", EvPayload.auth false)
    ∧ (request (fun _ => Outcome.http 401 body) st).state.token = none
    ∧ (request (fun _ => Outcome.http 401 body) st).state.lsToken = none
    ∧ (request (fun _ => Outcome.http 401 body) st).state.lsRemember = false := by
  cases hsock : st.socket <;>
    simp [request, requestGo, maxRetries, retryDelay, refreshAuthToken, logout,
          disconnectSocket, broadcastEvent, statusOk, hsock, List.replicate]

/-- Claim C3: for every transport trace and client state, request issues at
least one and at most maxRetries + 1 fetch attempts (at most maxRetries
beyond the first), and the same bound holds for any retry budget; request
is a total function, so every call settles: there is no infinite retry
loop under persistent failure. -/
theorem c3_attempts_bounded (trace : Nat → Outcome) (st : ClientState) :
    1 ≤ (request trace st).attempts
    ∧ (request trace st).attempts ≤ maxRetries + 1
    ∧ ∀ maxR delayD : Nat, (requestGo trace maxR delayD maxR st).attempts ≤ maxR + 1 :=
  ⟨(requestGo_attempts trace maxRetries retryDelay maxRetries st).1,
   (requestGo_attempts trace maxRetries retryDelay maxRetries st).2,
   fun maxR delayD => (requestGo_attempts trace maxR delayD maxR st).2⟩

/-- Claim C4: a request whose first k attempts (k below maxRetries) return
HTTP 429 and whose next attempt returns HTTP 200 resolves with the success
payload; attempts here are numbered by retryCount, the spec's 0-based
attemptNumber, and the backoff delay waited before attempt n (the delay
scheduled when attempt n - 1 came back 429) is retryDelay * 2 ^ (n - 1),
for every n from 1 to k, which covers the claim's range n at least 2. -/
theorem c4_rate_limit_backoff (k : Nat) (hk : k < maxRetries) (body : Body) (st : ClientState) :
    (request (fun i => if i < k then Outcome.http 429 { } else Outcome.http 200 body) st).result
      = Except.ok body
    ∧ (request (fun i => if i < k then Outcome.http 429 { } else Outcome.http 200 body) st).attempts
      = k + 1
    ∧ (request (fun i => if i < k then Outcome.http 429 { } else Outcome.http 200 body) st).delays
        = (List.range k).map (fun i => retryDelay * 2 ^ i)
    ∧ ∀ n, 1 ≤ n → n ≤ k →
        (request (fun i => if i < k then Outcome.http 429 { } else Outcome.http 200 body)
          st).delays.get? (n - 1) = some (retryDelay * 2 ^ (n - 1)) := by
  have hk3 : k < 3 := hk
  interval_cases k
  · refine ⟨?_, ?_, ?_, ?_⟩ <;>
      first
      | (intro n h1 h2; omega)
      | simp [request, requestGo, maxRetries, retryDelay, statusOk, List.range_succ]
  · refine ⟨?_, ?_, ?_, ?_⟩ <;>
      first
      | (intro n h1 h2; interval_cases n <;>
          simp [request, requestGo, maxRetries, retryDelay, statusOk, List.range_succ])
      | simp [request, requestGo, maxRetries, retryDelay, statusOk, List.range_succ]
  · refine ⟨?_, ?_, ?_, ?_⟩ <;>
      first
      | (intro n h1 h2; interval_cases n <;>
          simp [request, requestGo, maxRetries, retryDelay, statusOk, List.range_succ])
      | simp [request, requestGo, maxRetries, retryDelay, statusOk, List.range_succ]

/-- Claim C4, witness: two 429 responses then success resolves with the
payload, and the delay before attempt 2 is retryDelay * 2 ^ 1. -/
theorem c4_rate_limit_backoff_witness :
    (request (fun i => if i < 2 then Outcome.http 429 { } else Outcome.http 200 { payload := 42 })
        { }).result = Except.ok { payload := 42 }
    ∧ (request (fun i => if i < 2 then Outcome.http 429 { } else Outcome.http 200 { payload := 42 })
        { }).delays.get? 1 = some (retryDelay * 2 ^ 1) :=
  ⟨(c4_rate_limit_backoff 2 (by decide) { payload := 42 } { }).1, by
    have h := (c4_rate_limit_backoff 2 (by decide) { payload := 42 } { }).2.2.2 2
      (by decide) (by decide)
    simpa using h⟩

end APIClient

namespace APIClient

/-- Claim C5: over any sequence of channel events containing no successful
connection (no underlying connect event), starting from a disconnected state
whose reconnect counter is within the bound: scheduled reconnects advance in
lockstep with the counter, the counter never exceeds maxReconnectAttempts
(so at most maxReconnectAttempts reconnects are ever scheduled from a fresh
state), a state whose counter is already exhausted schedules nothing further,
the channel stays Disconnected, and a successful connection resets the
counter to 0. -/
theorem c5_reconnect_bound (es : List SockEv) (st : ClientState)
    (hne : ∀ e ∈ es, e ≠ SockEv.connectEvent)
    (h1 : st.reconnectAttempts ≤ maxReconnectAttempts)
    (h2 : st.socketConnected = false) :
    (runSock st es).totalScheduled + st.reconnectAttempts
        = st.totalScheduled + (runSock st es).reconnectAttempts
    ∧ (runSock st es).reconnectAttempts ≤ maxReconnectAttempts
    ∧ (runSock st es).totalScheduled ≤ st.totalScheduled + maxReconnectAttempts
    ∧ (st.reconnectAttempts = maxReconnectAttempts →
        (runSock st es).totalScheduled = st.totalScheduled)
    ∧ (runSock st es).socketConnected = false
    ∧ ∀ st2 : ClientState, (sockStep st2 SockEv.connectEvent).reconnectAttempts = 0 := by
  obtain ⟨ha, hb, hc, hd⟩ := runSock_inv es st hne h1 h2
  exact ⟨hc, ha, by omega, fun hmax => by omega, hd,
    fun st2 => by simp [sockStep, onConnect, broadcastEvent]⟩

/-- Claim C5, witness: seven consecutive unintentional disconnects from a
fresh client schedule at most maxReconnectAttempts reconnects and leave the
channel disconnected. -/
theorem c5_reconnect_bound_witness :
    (runSock { } (List.replicate 7 SockEv.disconnectEvent)).totalScheduled
        ≤ ({ } : ClientState).totalScheduled + maxReconnectAttempts
    ∧ (runSock { } (List.replicate 7 SockEv.disconnectEvent)).socketConnected = false :=
  ⟨(c5_reconnect_bound (List.replicate 7 SockEv.disconnectEvent) { }
      (by decide) (by decide) rfl).2.2.1,
   (c5_reconnect_bound (List.replicate 7 SockEv.disconnectEvent) { }
      (by decide) (by decide) rfl).2.2.2.2.1⟩

/-- Claim C6, counterexample: connect, successful connection, explicit
disconnectSocket, then the underlying disconnect event: the handler STILL
schedules a reconnection (pendingReconnects is 1, not 0, and the claim says
an intentional flag suppresses it), and the heartbeat interval started by
setupSocketHandlers is still active (heartbeatTimers is 1, not torn down);
only the transition to Disconnected holds. -/
theorem c6_counterexample :
    (runSock { } [SockEv.callConnect, SockEv.connectEvent, SockEv.callDisconnect,
        SockEv.disconnectEvent]).pendingReconnects = 1
    ∧ (runSock { } [SockEv.callConnect, SockEv.connectEvent, SockEv.callDisconnect,
        SockEv.disconnectEvent]).heartbeatTimers = 1
    ∧ (runSock { } [SockEv.callConnect, SockEv.connectEvent, SockEv.callDisconnect,
        SockEv.disconnectEvent]).socketConnected = false
    ∧ ¬((runSock { } [SockEv.callConnect, SockEv.connectEvent, SockEv.callDisconnect,
        SockEv.disconnectEvent]).pendingReconnects = 0
        ∧ (runSock { } [SockEv.callConnect, SockEv.connectEvent, SockEv.callDisconnect,
            SockEv.disconnectEvent]).heartbeatTimers = 0) := by
  decide

/-- Claim C6, amended: an explicit disconnectSocket() on a live socket clears
the socket reference and socketConnected (the channel is Disconnected), but
there is no intentional flag: the disconnect handler that follows still
increments reconnectAttempts and schedules a reconnection whenever
reconnectAttempts is below maxReconnectAttempts, and no step of the channel
machine ever tears down a started heartbeat interval. -/
theorem c6_no_intentional_flag (st : ClientState) (s : Socket)
    (hs : st.socket = some s) (hra : st.reconnectAttempts < maxReconnectAttempts) :
    (disconnectSocket st).socket = none
    ∧ (disconnectSocket st).socketConnected = false
    ∧ (onDisconnect (disconnectSocket st)).pendingReconnects = st.pendingReconnects + 1
    ∧ (onDisconnect (disconnectSocket st)).reconnectAttempts = st.reconnectAttempts + 1
    ∧ ∀ (st2 : ClientState) (e : SockEv), st2.heartbeatTimers ≤ (sockStep st2 e).heartbeatTimers := by
  refine ⟨?_, ?_, ?_, ?_, heartbeat_mono⟩ <;>
    simp [disconnectSocket, hs, onDisconnect, broadcastEvent, hra]

/-- Claim C6, witness for the amended theorem at a concrete state. -/
theorem c6_no_intentional_flag_witness :
    (onDisconnect (disconnectSocket { socket := some { connected := true } })).pendingReconnects = 1
    ∧ (disconnectSocket { socket := some { connected := true } } : ClientState).socket = none := by
  have h := c6_no_intentional_flag { socket := some { connected := true } }
    { connected := true } rfl (by decide)
  exact ⟨by simpa using h.2.2.1, h.1⟩

/-- Claim C7, counterexample: two connectSocket() calls in immediate
succession from a fresh client (the first still Connecting when the second
arrives) open TWO underlying connections, not one. -/
theorem c7_counterexample :
    (runSock { } [SockEv.callConnect]).socket = some { connected := false }
    ∧ (runSock { } [SockEv.callConnect, SockEv.callConnect]).connectionsOpened = 2
    ∧ ¬((runSock { } [SockEv.callConnect, SockEv.callConnect]).connectionsOpened = 1) := by
  decide

/-- Claim C7, amended: the guard in connectSocket() tests socket?.connected,
so the call is a no-op only while Connected; while Connecting (a socket
exists but is not yet connected) a further connectSocket() call opens
another underlying connection. -/
theorem c7_guard_only_when_connected (st : ClientState) :
    (st.socket = some { connected := true } → connectSocket st = st)
    ∧ (st.socket = some { connected := false } →
        (connectSocket st).connectionsOpened = st.connectionsOpened + 1
        ∧ (connectSocket st).socket = some { connected := false }) := by
  constructor
  · intro h
    simp [connectSocket, h]
  · intro h
    simp [connectSocket, h]

/-- Claim C7, witness for the amended theorem at concrete states. -/
theorem c7_guard_only_when_connected_witness :
    connectSocket { socket := some { connected := true } }
      = { socket := some { connected := true } }
    ∧ (connectSocket { socket := some { connected := false } }).connectionsOpened = 1 :=
  ⟨(c7_guard_only_when_connected { socket := some { connected := true } }).1 rfl,
   ((c7_guard_only_when_connected { socket := some { connected := false } }).2 rfl).1⟩

/-- Claim C8, counterexample: with handlers 0 and 1 registered in that order
for an event and handler 0 throwing, a publish invokes only handler 0:
handler 1 is never invoked and the exception propagates to the publisher,
contradicting the claimed isolation. -/
theorem c8_counterexample :
    forEachRun (onListener (onListener [] 0) 1) (fun h => h == 0) = ([0], some 0)
    ∧ ¬(1 ∈ (forEachRun (onListener (onListener [] 0) 1) (fun h => h == 0)).1)
    ∧ ¬((forEachRun (onListener (onListener [] 0) 1) (fun h => h == 0)).2 = none) := by
  decide

/-- Claim C8, amended: broadcastEvent invokes the registered handlers
synchronously in registration order, each at most once, but only up to and
including the first handler that throws (there is no try/catch around the
forEach callback): the invoked handlers are the non-throwing prefix plus the
first thrower, and the first thrower's exception is the one that propagates
to the publisher; in particular when no handler throws, every registered
handler is invoked exactly once in order and nothing propagates. -/
theorem c8_no_handler_isolation (hs : List Nat) (throws : Nat → Bool) :
    (forEachRun hs throws).1
      = hs.takeWhile (fun h => !throws h) ++ (hs.dropWhile (fun h => !throws h)).take 1
    ∧ (forEachRun hs throws).2 = (hs.dropWhile (fun h => !throws h)).head? :=
  forEachRun_spec hs throws

/-- Claim C9, counterexample: registering the identical handler (id 7) twice
for the same event stores it once (JS Set semantics), and a publish invokes
it once, not once per registration (not twice). -/
theorem c9_counterexample :
    onListener (onListener [] 7) 7 = [7]
    ∧ (forEachRun (onListener (onListener [] 7) 7) (fun _ => false)).1.count 7 = 1
    ∧ ¬((forEachRun (onListener (onListener [] 7) 7) (fun _ => false)).1.count 7 = 2) := by
  decide

/-- Claim C9, amended: handlers are held per event in a Set keyed by function
identity, so registering the identical handler again is a no-op, and a
publish on which no handler throws invokes that handler exactly once,
regardless of how many times it was registered. -/
theorem c9_duplicate_registration_deduped (l : List Nat) (h : Nat) (throws : Nat → Bool)
    (hnd : l.Nodup) (hnothrow : ∀ x, throws x = false) :
    onListener (onListener l h) h = onListener l h
    ∧ (forEachRun (onListener l h) throws).1.count h = 1 := by
  have hmem : h ∈ onListener l h := by
    by_cases hin : h ∈ l <;> simp [onListener, hin]
  have hnd2 : (onListener l h).Nodup := by
    by_cases hin : h ∈ l
    · simpa [onListener, hin] using hnd
    · simpa [onListener, hin] using
        hnd.append (List.nodup_singleton h) (List.disjoint_singleton.2 hin)
  constructor
  · show (if h ∈ onListener l h then onListener l h else onListener l h ++ [h]) = onListener l h
    rw [if_pos hmem]
  · rw [forEachRun_all _ _ (fun x _ => hnothrow x)]
    exact List.count_eq_one_of_mem hnd2 hmem

/-- Claim C9, witness for the amended theorem at a concrete input. -/
theorem c9_duplicate_registration_deduped_witness :
    onListener (onListener [1, 2] 2) 2 = onListener [1, 2] 2
    ∧ (forEachRun (onListener [1, 2] 2) (fun _ => false)).1.count 2 = 1 :=
  c9_duplicate_registration_deduped [1, 2] 2 (fun _ => false) (by decide) (fun _ => rfl)

/-- Claim C10, counterexample: a login POST answered with HTTP 401 on every
attempt rejects, but the credential state does NOT keep its prior values:
the stored token (previously old) is cleared, the remember-me flag is
cleared, and authChange with authenticated false is published three times,
because the 401 path of request runs refreshAuthToken, whose failure calls
logout. -/
theorem c10_counterexample :
    (login (fun _ => Outcome.http 401 { error := some "Invalid credentials" })
        { token := some "old", lsToken := some "old", lsRemember := true }
        "u" "p" false).1 = Except.error (JsError.httpErr "Invalid credentials")
    ∧ (login (fun _ => Outcome.http 401 { error := some "Invalid credentials" })
        { token := some "old", lsToken := some "old", lsRemember := true }
        "u" "p" false).2.token = none
    ∧ (login (fun _ => Outcome.http 401 { error := some "Invalid credentials" })
        { token := some "old", lsToken := some "old", lsRemember := true }
        "u" "p" false).2.log.count ("authChange", EvPayload.auth false) = 3
    ∧ ¬((login (fun _ => Outcome.http 401 { error := some "Invalid credentials" })
        { token := some "old", lsToken := some "old", lsRemember := true }
        "u" "p" false).2
        = { token := some "old", lsToken := some "old", lsRemember := true }) := by
  decide

/-- Claim C10, amended: if the POST issued by login rejects and no attempt
received HTTP 401, login rethrows the error and the client state is exactly
unchanged: the stored token, the persisted token entry, the remember-me flag
and the event log (hence no authChange publication) all keep their prior
values.  When some attempt does receive a 401, refreshAuthToken's failing
path clears the credential and publishes authChange, as the counterexample
shows. -/
theorem c10_login_failure_preserves_state (trace : Nat → Outcome) (st : ClientState)
    (u p : String) (rememberMe : Bool) (e : JsError)
    (h401 : ∀ i b, trace i ≠ Outcome.http 401 b)
    (herr : (request trace st).result = Except.error e) :
    (login trace st u p rememberMe).1 = Except.error e
    ∧ (login trace st u p rememberMe).2 = st := by
  have hstate : (request trace st).state = st :=
    requestGo_state_no401 trace maxRetries retryDelay h401 maxRetries st
  simp [login, herr, hstate]

/-- Claim C10, witness for the amended theorem at a concrete input. -/
theorem c10_login_failure_preserves_state_witness :
    (login (fun _ => Outcome.http 500 { error := some "boom" })
        { token := some "old" } "u" "p" true).1 = Except.error (JsError.httpErr "boom")
    ∧ (login (fun _ => Outcome.http 500 { error := some "boom" })
        { token := some "old" } "u" "p" true).2 = { token := some "old" } :=
  c10_login_failure_preserves_state (fun _ => Outcome.http 500 { error := some "boom" })
    { token := some "old" } "u" "p" true (JsError.httpErr "boom")
    (fun _ b hb => by simp at hb) (by decide)

end APIClient
